import Mathlib

/-!
# job-gtm — verification of the ingestion pipeline specification

Shallow embedding of the job-gtm repository:

* the scraper-side data model and the per-site scrapers
  (`scraper/src/scrapers/JobBoardScraper.ts`, `DiceScraper.ts`,
  `ZipRecruiterScraper.ts`, `SimplyHiredScraper.ts`, `IndeedScraper.ts`),
* the scraper registry and factory (`ScraperRegistry.ts`, `ScraperFactory.ts`,
  `scrapers/index.ts`),
* the queue / consumer / store layer.  The Python sources
  (`workflow-svc/consumer.py`, `queue_config.py`, the Alembic migrations) are
  not part of the analysed tree; those parts are modelled from the
  specification and the repository documentation (`QUEUE_SETUP.md`, the
  migrations guide), as marked in the individual doc comments.

Browser interaction (puppeteer) is abstracted into explicit environment
records describing what each page/element query returns; the pure
post-processing that the TypeScript code performs on those values (trimming,
`replace`, `toLowerCase`, `includes`, the salary/experience regexes,
`parseInt`) is embedded as executable Lean functions.
-/

namespace JobGtm

/-! ## Data model: the `JobListing` record (JobBoardScraper.ts) -/

/-- The `JobListing` interface of `JobBoardScraper.ts`: fourteen fields, the
salary bounds being `number | null` (here `Option Int`), everything else a
string. -/
structure JobListing where
  companyTitle : String
  jobRole : String
  salaryRange : String
  minSalary : Option Int
  maxSalary : Option Int
  requiredExperience : String
  jobLocation : String
  jobDescription : String
  datePosted : String
  postingUrl : String
  seniorityLevel : String
  hiringTeam : String
  aboutCompany : String
  employmentType : String
  deriving DecidableEq, Repr

/-! ## Models of the JavaScript string primitives used by the scrapers -/

/-- Model of JavaScript `String.prototype.toLowerCase` for the strings
appearing in this code base: each character is lowercased (the scrapers only
feed it ASCII source names and scraped text). -/
def jsToLowerCase (s : String) : String := ⟨s.data.map Char.toLower⟩

/-- Does the pattern (first argument) occur at the head of the text? -/
def leadsWith : List Char → List Char → Bool
  | [], _ => true
  | _ :: _, [] => false
  | a :: as, b :: bs => a = b && leadsWith as bs

/-- Substring occurrence of `sub` in a character list, used to model
JavaScript `String.prototype.includes`. -/
def containsSub (sub : List Char) : List Char → Bool
  | [] => sub.isEmpty
  | c :: t => leadsWith sub (c :: t) || containsSub sub t

/-- Model of JavaScript `s.includes(sub)`. -/
def jsIncludes (s sub : String) : Bool := containsSub sub.data s.data

/-- Model of JavaScript `s.startsWith(pre)`. -/
def jsStartsWith (s pre : String) : Bool := leadsWith pre.data s.data

/-- Model of JavaScript `String.prototype.trim`. -/
def jsTrim (s : String) : String :=
  ⟨((s.data.dropWhile (·.isWhitespace)).reverse.dropWhile (·.isWhitespace)).reverse⟩

/-- Model of `text.replace(/^\s+\S+\s+/ len-0 variant, '')` as used by
`ZipRecruiterScraper.getCompanyTitle` / `getJobLocation`, i.e. the regex
`^\s*\S+\s*` replaced by the empty string: leading whitespace, a nonempty
run of non-whitespace, and trailing whitespace are removed; if the text has
no non-whitespace character the regex does not match and the text is kept. -/
def jsStripLeadToken (s : String) : String :=
  let rest := s.data.dropWhile (·.isWhitespace)
  match rest with
  | [] => s
  | _ :: _ => ⟨(rest.dropWhile (fun c => !c.isWhitespace)).dropWhile (·.isWhitespace)⟩

/-- Model of JavaScript `parseInt` applied to a digit string: the leading
digit run is parsed; an input with no leading digit gives `NaN`, modelled as
`none` (a `NaN` salary serializes to JSON `null`, like a missing one). -/
def jsParseIntDigits (l : List Char) : Option Nat :=
  let ds := l.takeWhile Char.isDigit
  if ds.isEmpty then none
  else some (ds.foldl (fun n c => n * 10 + (c.toNat - 48)) 0)

/-! ## Models of the salary / experience regexes of the scrapers -/

/-- Characters matched by the `[\d,]` class of the salary regexes. -/
def isDigitOrComma (c : Char) : Bool := c.isDigit || c = ','

/-- Case-insensitive match of a lowercase literal pattern against the head of
the text, returning the consumed original characters and the remainder. -/
def matchLitIns : List Char → List Char → Option (List Char × List Char)
  | [], l => some ([], l)
  | _ :: _, [] => none
  | a :: as, c :: cs =>
    if c = a || c = a.toUpper then
      (matchLitIns as cs).map (fun p => (c :: p.1, p.2))
    else none

/-- Does `(?:-|to)` (case-insensitive) match at the head of the text? -/
def dashOrToAhead (l : List Char) : Bool :=
  match l with
  | '-' :: _ => true
  | c :: o :: _ => (c = 't' || c = 'T') && (o = 'o' || o = 'O')
  | _ => false

/-- Attempt of the min-salary regex `sym?([\d,]+)k?\s*(?:-|to)` (with `sym`
the optional currency sign, `$` for Dice and `₹` for ZipRecruiter) at the
current position; `allowK` is false for SimplyHired whose pattern has no
`k?`.  Returns the capture group. -/
def salaryMinAt (sym : Char) (allowK : Bool) (l : List Char) : Option (List Char) :=
  let l1 := match l with
    | c :: rest => if c = sym then rest else l
    | [] => l
  let grp := l1.takeWhile isDigitOrComma
  if grp.isEmpty then none
  else
    let l2 := l1.dropWhile isDigitOrComma
    let l3 := match l2 with
      | c :: rest => if allowK && (c = 'k' || c = 'K') then rest else l2
      | [] => l2
    let l4 := l3.dropWhile (·.isWhitespace)
    if dashOrToAhead l4 then some grp else none

/-- Leftmost match of the min-salary regex over the whole text. -/
def scanSalaryMin (sym : Char) (allowK : Bool) : List Char → Option (List Char)
  | [] => none
  | c :: rest =>
    match salaryMinAt sym allowK (c :: rest) with
    | some g => some g
    | none => scanSalaryMin sym allowK rest

/-- Attempt of the max-salary regex `(?:-|to)\s*sym?([\d,]+)k?` at the
current position, returning the capture group. -/
def salaryMaxAt (sym : Char) (l : List Char) : Option (List Char) :=
  let l1? : Option (List Char) := match l with
    | '-' :: rest => some rest
    | c :: o :: rest =>
      if (c = 't' || c = 'T') && (o = 'o' || o = 'O') then some rest else none
    | _ => none
  match l1? with
  | none => none
  | some l1 =>
    let l2 := l1.dropWhile (·.isWhitespace)
    let l3 := match l2 with
      | c :: rest => if c = sym then rest else l2
      | [] => l2
    let grp := l3.takeWhile isDigitOrComma
    if grp.isEmpty then none else some grp

/-- Leftmost match of the max-salary regex over the whole text. -/
def scanSalaryMax (sym : Char) : List Char → Option (List Char)
  | [] => none
  | c :: rest =>
    match salaryMaxAt sym (c :: rest) with
    | some g => some g
    | none => scanSalaryMax sym rest

/-- Model of `parseInt(match[1].replace(/,/g, ''))` followed by the Dice/ZipRecruiter
`k`-multiplier: `range.toLowerCase().includes('k') && !range.includes(',') ?
value * 1000 : value`. -/
def salaryFromGroupK (range : String) (grp : List Char) : Option Int :=
  match jsParseIntDigits (grp.filter (fun c => !(c = ','))) with
  | none => none
  | some v =>
    if (jsToLowerCase range).data.contains 'k' && !(range.data.contains ',') then
      some ((v : Int) * 1000)
    else some (v : Int)

/-- Model of `parseInt(match[1].replace(/,/g, ''))` without a multiplier
(SimplyHired). -/
def salaryFromGroup (grp : List Char) : Option Int :=
  (jsParseIntDigits (grp.filter (fun c => !(c = ',')))).map (fun v => (v : Int))

/-- First alternative of the experience regex
`\d+\+?\s*(?:to|-)\s*\d+\s*years?` (case-insensitive), matched at the current
position; returns the whole matched text. -/
def expAlt1At (l : List Char) : Option (List Char) :=
  let d1 := l.takeWhile Char.isDigit
  if d1.isEmpty then none
  else
    let r1 := l.dropWhile Char.isDigit
    let p1 : List Char × List Char := match r1 with
      | '+' :: rest => (['+'], rest)
      | _ => ([], r1)
    let w1 := p1.2.takeWhile (·.isWhitespace)
    let r3 := p1.2.dropWhile (·.isWhitespace)
    let sep? : Option (List Char × List Char) :=
      match matchLitIns ['t', 'o'] r3 with
      | some p => some p
      | none =>
        match r3 with
        | '-' :: rest => some (['-'], rest)
        | _ => none
    match sep? with
    | none => none
    | some sep =>
      let w2 := sep.2.takeWhile (·.isWhitespace)
      let r5 := sep.2.dropWhile (·.isWhitespace)
      let d2 := r5.takeWhile Char.isDigit
      if d2.isEmpty then none
      else
        let r6 := r5.dropWhile Char.isDigit
        let w3 := r6.takeWhile (·.isWhitespace)
        let r7 := r6.dropWhile (·.isWhitespace)
        match matchLitIns ['y', 'e', 'a', 'r'] r7 with
        | none => none
        | some yr =>
          let s? : List Char := match yr.2 with
            | c :: _ => if c = 's' || c = 'S' then [c] else []
            | [] => []
          some (d1 ++ p1.1 ++ w1 ++ sep.1 ++ w2 ++ d2 ++ w3 ++ yr.1 ++ s?)

/-- Second alternative of the experience regex `\d+\+?\s*years?`
(case-insensitive) at the current position. -/
def expAlt2At (l : List Char) : Option (List Char) :=
  let d1 := l.takeWhile Char.isDigit
  if d1.isEmpty then none
  else
    let r1 := l.dropWhile Char.isDigit
    let p1 : List Char × List Char := match r1 with
      | '+' :: rest => (['+'], rest)
      | _ => ([], r1)
    let w1 := p1.2.takeWhile (·.isWhitespace)
    let r3 := p1.2.dropWhile (·.isWhitespace)
    match matchLitIns ['y', 'e', 'a', 'r'] r3 with
    | none => none
    | some yr =>
      let s? : List Char := match yr.2 with
        | c :: _ => if c = 's' || c = 'S' then [c] else []
        | [] => []
      some (d1 ++ p1.1 ++ w1 ++ yr.1 ++ s?)

/-- Leftmost-first match of the experience regex
`(\d+\+?\s*(?:to|-)\s*\d+\s*years?|\d+\+?\s*years?)/i`. -/
def scanExp : List Char → Option (List Char)
  | [] => none
  | c :: rest =>
    match expAlt1At (c :: rest) with
    | some m => some m
    | none =>
      match expAlt2At (c :: rest) with
      | some m => some m
      | none => scanExp rest

/-- Model of `description.match(expRegex)` followed by
`experienceMatch ? experienceMatch[0] : ""`. -/
def experienceFrom (s : String) : String :=
  match scanExp s.data with
  | some m => ⟨m⟩
  | none => ""

/-- The seniority keyword cascade shared verbatim by `DiceScraper`,
`ZipRecruiterScraper` and `SimplyHiredScraper`:
`` `${jobRole} ${description}`.toLowerCase() `` probed with `includes`. -/
def seniorityFrom (jobRole description : String) : String :=
  let combined := jsToLowerCase (jobRole ++ " " ++ description)
  if jsIncludes combined "senior" || jsIncludes combined "sr." then "Senior"
  else if jsIncludes combined "lead" then "Lead"
  else if jsIncludes combined "principal" then "Principal"
  else if jsIncludes combined "staff" then "Staff"
  else if jsIncludes combined "junior" || jsIncludes combined "jr." then "Junior"
  else if jsIncludes combined "entry" then "Entry Level"
  else if jsIncludes combined "mid" then "Mid Level"
  else ""

/-- Model of `ZipRecruiterScraper.getEmploymentType`: keyword scan over the lowercased
description. -/
def employmentTypeFromDescription (description : String) : String :=
  let d := jsToLowerCase description
  if jsIncludes d "full-time" || jsIncludes d "full time" then "Full-time"
  else if jsIncludes d "part-time" || jsIncludes d "part time" then "Part-time"
  else if jsIncludes d "contract" then "Contract"
  else if jsIncludes d "temporary" then "Temporary"
  else if jsIncludes d "internship" then "Internship"
  else ""

/-! ## DiceScraper (DiceScraper.ts)

The puppeteer interaction of `scrape` is abstracted into an environment: what
the navigation returned and what each element query on a job card yields
(`none` models an absent element or a query error, which every getter traps
with its own try/catch before falling back to `""`). -/

/-- What the element queries of `DiceScraper`'s getters observe on one job
card. -/
structure DiceCardEnv where
  companyTitle : Option String
  jobRole : Option String
  salaryRange : Option String
  /-- text of the `[class*="card-description"]` element used by
  `getRequiredExperience`. -/
  cardDescription : Option String
  /-- texts of the `p.text-sm.font-normal.text-zinc-600` elements; the first
  is the location, the second the posting date. -/
  locationTexts : List String
  jobDescription : Option String
  /-- The `href` attribute of the job-detail link (`none`: element absent). -/
  href : Option String
  employmentType : Option String
  deriving DecidableEq, Repr

/-- Model of `DiceScraper.getMinSalary`: guard on a nonempty salary range, regex
`\$?([\d,]+)k?\s*(?:-|to)/i`, `parseInt` with the `k` multiplier. -/
def diceGetMinSalary (range : String) : Option Int :=
  if range = "" then none
  else
    match scanSalaryMin '$' true range.data with
    | none => none
    | some grp => salaryFromGroupK range grp

/-- Model of `DiceScraper.getMaxSalary`: regex `(?:-|to)\s*\$?([\d,]+)k?/i`. -/
def diceGetMaxSalary (range : String) : Option Int :=
  if range = "" then none
  else
    match scanSalaryMax '$' range.data with
    | none => none
    | some grp => salaryFromGroupK range grp

/-- Model of `href.startsWith('http') ? href : baseUrl + href`, behind the truthiness
guard `if (href)`; no element or an empty attribute falls back to `""`. -/
def postingUrlFrom (base : String) (href : Option String) : String :=
  match href with
  | some h => if h = "" then "" else if jsStartsWith h "http" then h else base ++ h
  | none => ""

/-- The record literal built per job card inside `DiceScraper.scrape`. -/
def mkDiceJobListing (env : DiceCardEnv) : JobListing where
  companyTitle := env.companyTitle.getD ""
  jobRole := env.jobRole.getD ""
  salaryRange := env.salaryRange.getD ""
  minSalary := diceGetMinSalary (env.salaryRange.getD "")
  maxSalary := diceGetMaxSalary (env.salaryRange.getD "")
  requiredExperience :=
    match env.cardDescription with
    | some d => experienceFrom d
    | none => ""
  jobLocation := env.locationTexts.headD ""
  jobDescription := env.jobDescription.getD ""
  datePosted := (env.locationTexts.drop 1).headD ""
  postingUrl := postingUrlFrom "https://www.dice.com" env.href
  seniorityLevel := seniorityFrom (env.jobRole.getD "") (env.jobDescription.getD "")
  hiringTeam := ""
  aboutCompany := ""
  employmentType := env.employmentType.getD ""

/-- What `DiceScraper.scrape` observes while driving the browser for one
page. -/
structure DicePageEnv where
  /-- the browser launch / navigation threw (trapped by the outer catch,
  which returns the jobs collected so far). -/
  gotoFails : Bool
  /-- Value `none` models a null navigation response, `some s` the HTTP status. -/
  response : Option Nat
  /-- True when `waitForSelector` for the job cards succeeded (its failure is trapped
  and yields an empty result). -/
  cardsFound : Bool
  cards : List DiceCardEnv
  deriving DecidableEq, Repr

/-- Model of `DiceScraper.scrape`: the result is `Except` so that a thrown error could
be expressed, but every failure path of this scraper returns the job list
collected so far (the outer catch comments "Return empty array instead of
throwing to allow workflow to continue"). -/
def diceScrape (_page : Nat) (env : DicePageEnv) : Except String (List JobListing) :=
  if env.gotoFails then .ok []
  else
    match env.response with
    | none => .ok []
    | some status =>
      if status ≠ 200 then .ok []
      else if !env.cardsFound then .ok []
      else .ok (env.cards.map mkDiceJobListing)

/-! ## ZipRecruiterScraper (ZipRecruiterScraper.ts) -/

/-- What the element queries of `ZipRecruiterScraper`'s getters observe on
one `li.job-listing` card. -/
structure ZipCardEnv where
  /-- text of the `li` holding the `fa-building` icon (company). -/
  companyTitleText : Option String
  jobRoleText : Option String
  /-- text of the `li` holding the `fa-map-marker-alt` icon (location). -/
  locationText : Option String
  descriptionText : Option String
  dateText : Option String
  href : Option String
  deriving DecidableEq, Repr

/-- Model of `ZipRecruiterScraper.getSalaryRange` returns `""` unconditionally
("ZipRecruiter doesn't always show salary on listing cards"). -/
def zipSalaryRange : String := ""

/-- Model of `ZipRecruiterScraper.getMinSalary`: same shape as Dice's, with `₹` for
the currency sign; with `zipSalaryRange = ""` the regex branch is dead. -/
def zipGetMinSalary (range : String) : Option Int :=
  if range = "" then none
  else
    match scanSalaryMin '₹' true range.data with
    | none => none
    | some grp => salaryFromGroupK range grp

/-- Model of `ZipRecruiterScraper.getMaxSalary`. -/
def zipGetMaxSalary (range : String) : Option Int :=
  if range = "" then none
  else
    match scanSalaryMax '₹' range.data with
    | none => none
    | some grp => salaryFromGroupK range grp

/-- The record literal built per job card inside
`ZipRecruiterScraper.scrape`; company and location strip the leading icon
token (`text.replace(/^\s*\S+\s*/, '').trim()`). -/
def mkZipJobListing (env : ZipCardEnv) : JobListing where
  companyTitle :=
    match env.companyTitleText with
    | some t => jsTrim (jsStripLeadToken t)
    | none => ""
  jobRole := env.jobRoleText.getD ""
  salaryRange := zipSalaryRange
  minSalary := zipGetMinSalary zipSalaryRange
  maxSalary := zipGetMaxSalary zipSalaryRange
  requiredExperience := experienceFrom (env.descriptionText.getD "")
  jobLocation :=
    match env.locationText with
    | some t => jsTrim (jsStripLeadToken t)
    | none => ""
  jobDescription := env.descriptionText.getD ""
  datePosted := env.dateText.getD ""
  postingUrl := postingUrlFrom "https://www.ziprecruiter.in" env.href
  seniorityLevel := seniorityFrom (env.jobRoleText.getD "") (env.descriptionText.getD "")
  hiringTeam := ""
  aboutCompany := ""
  employmentType := employmentTypeFromDescription (env.descriptionText.getD "")

/-- The search URL built inside `ZipRecruiterScraper.scrape(page)`; no city
occurs in it. -/
def zipRecruiterUrl (page : Nat) : String :=
  "https://www.ziprecruiter.in/jobs/search?d=&l=&lat=&long=&page=" ++ toString page
    ++ "&q=&remote=on_site&sort=published_at"

/-- What the ZipRecruiter site returns for each URL the scraper could
request; indexing by URL makes the scrape output depend on the URL that the
scraper actually navigates to. -/
structure ZipSiteEnv where
  gotoFails : String → Bool
  response : String → Option Nat
  cardsFound : String → Bool
  cards : String → List ZipCardEnv

/-- The per-instance state of a `ZipRecruiterScraper`: its three fields all
start as `null`; the class declares no constructor, so the `super(city)`
call from the per-city subclass created in `scrapers/index.ts` stores
nothing. -/
structure ZipRecruiterScraperState where
  browser : Option Unit := none
  page : Option Unit := none
  currentJobElement : Option Unit := none
  deriving DecidableEq, Repr

/-- Model of `new ZipRecruiterCityScraper()` for a given city
(`scrapers/index.ts`): the city reaches the constructor-less base class and
is discarded. -/
def mkZipRecruiterCityScraper (_city : String) : ZipRecruiterScraperState := {}

/-- The decision part of `ZipRecruiterScraper.scrape` for the content served
at `url`: like Dice, every failure path returns the jobs collected so far. -/
def zipScrapeBody (url : String) (env : ZipSiteEnv) : Except String (List JobListing) :=
  if env.gotoFails url then .ok []
  else
    match env.response url with
    | none => .ok []
    | some status =>
      if status ≠ 200 then .ok []
      else if !(env.cardsFound url) then .ok []
      else .ok ((env.cards url).map mkZipJobListing)

/-- Model of `ZipRecruiterScraper.scrape`, instrumented with the URL it navigates to
(built once at the top of the method). -/
def zipScrapeTrace (_self : ZipRecruiterScraperState) (page : Nat) (env : ZipSiteEnv) :
    String × Except String (List JobListing) :=
  (zipRecruiterUrl page, zipScrapeBody (zipRecruiterUrl page) env)

/-! ## SimplyHiredScraper (SimplyHiredScraper.ts) -/

/-- What the element queries of `SimplyHiredScraper`'s getters observe on one
`[data-testid="searchSerpJob"]` card. -/
structure SHCardEnv where
  companyTitle : Option String
  jobRole : Option String
  salaryRange : Option String
  /-- texts of the `[data-testid^="requirementChip"]` elements. -/
  chips : List String
  location : Option String
  date : Option String
  href : Option String
  employmentType : Option String
  deriving DecidableEq, Repr

/-- Model of `SimplyHiredScraper.getRequiredExperience`: first requirement chip whose
text matches the experience regex. -/
def shRequiredExperience (chips : List String) : String :=
  match chips.findSome? (fun t => (scanExp t.data).map (fun m => (⟨m⟩ : String))) with
  | some m => m
  | none => ""

/-- Model of `SimplyHiredScraper.getJobDescription`: nonempty chips joined with
`', '`. -/
def shJobDescription (chips : List String) : String :=
  String.intercalate ", " (chips.filter (fun t => !(t = "")))

/-- Model of `SimplyHiredScraper.getMinSalary`: regex `₹?([\d,]+)\s*(?:-|to)/i` (no
`k?`, no multiplier). -/
def shGetMinSalary (range : String) : Option Int :=
  if range = "" then none
  else
    match scanSalaryMin '₹' false range.data with
    | none => none
    | some grp => salaryFromGroup grp

/-- Model of `SimplyHiredScraper.getMaxSalary`: regex `(?:-|to)\s*₹?([\d,]+)/i`. -/
def shGetMaxSalary (range : String) : Option Int :=
  if range = "" then none
  else
    match scanSalaryMax '₹' range.data with
    | none => none
    | some grp => salaryFromGroup grp

/-- The record literal built per job card inside
`SimplyHiredScraper.scrape`. -/
def mkSHJobListing (env : SHCardEnv) : JobListing where
  companyTitle := env.companyTitle.getD ""
  jobRole := env.jobRole.getD ""
  salaryRange := env.salaryRange.getD ""
  minSalary := shGetMinSalary (env.salaryRange.getD "")
  maxSalary := shGetMaxSalary (env.salaryRange.getD "")
  requiredExperience := shRequiredExperience env.chips
  jobLocation := env.location.getD ""
  jobDescription := shJobDescription env.chips
  datePosted := env.date.getD ""
  postingUrl := postingUrlFrom "https://www.simplyhired.co.in" env.href
  seniorityLevel := seniorityFrom (env.jobRole.getD "") (shJobDescription env.chips)
  hiringTeam := ""
  aboutCompany := ""
  employmentType := env.employmentType.getD ""

/-- What `SimplyHiredScraper.scrape` observes while driving the browser. -/
structure SHPageEnv where
  /-- launch / navigation threw with this message (rethrown by the outer
  catch). -/
  launchGotoFails : Option String
  /-- the unguarded `waitForSelector` for the job cards threw with this
  message (rethrown by the outer catch). -/
  waitCardsFails : Option String
  /-- clicking through the pagination block to the requested page worked. -/
  paginationOk : Bool
  cards : List SHCardEnv
  deriving Repr

/-- Model of `SimplyHiredScraper.scrape`: unlike Dice and ZipRecruiter, its outer
catch rethrows (`throw error`), and a pagination failure throws a fresh
plain `Error`. -/
def simplyHiredScrape (page : Nat) (env : SHPageEnv) : Except String (List JobListing) :=
  match env.launchGotoFails with
  | some msg => .error msg
  | none =>
    match env.waitCardsFails with
    | some msg => .error msg
    | none =>
      if page > 1 && !env.paginationOk then
        .error ("Could not navigate to page " ++ toString page ++ ". Page may not exist.")
      else .ok (env.cards.map mkSHJobListing)

/-! ## IndeedScraper (IndeedScraper.ts) -/

/-- Model of `IndeedScraper.scrape` returns the empty list for every page. -/
def indeedScrape (_page : Nat) : List JobListing := []

/-! ## Scraper registry and factory (ScraperRegistry.ts, ScraperFactory.ts,
scrapers/index.ts) -/

/-- The constructors held by the registry (`type ScraperConstructor = new
(...args) => JobBoardScraper`); the per-city ZipRecruiter subclass created in
`scrapers/index.ts` closes over its city name. -/
inductive ScraperConstructor where
  | dice
  | simplyHired
  | zipRecruiterCity (city : String)
  | indeed
  deriving DecidableEq, Repr

/-- The registry's backing `Map<string, ScraperConstructor>`, as an
insertion-ordered association list. -/
abbrev Registry := List (String × ScraperConstructor)

/-- Model of `ScraperRegistry.register`: stores under the lowercased name;
`Map.set` on an existing key replaces the value in place. -/
def registryRegister (reg : Registry) (name : String) (ctor : ScraperConstructor) : Registry :=
  let key := jsToLowerCase name
  if reg.any (fun p => p.1 = key) then
    reg.map (fun p => if p.1 = key then (key, ctor) else p)
  else reg ++ [(key, ctor)]

/-- Model of `ScraperRegistry.get`: looks up the lowercased name. -/
def registryGet (reg : Registry) (name : String) : Option ScraperConstructor :=
  (reg.find? (fun p => p.1 = jsToLowerCase name)).map Prod.snd

/-- Model of `ScraperRegistry.has`: membership of the lowercased name. -/
def registryHas (reg : Registry) (name : String) : Bool :=
  reg.any (fun p => p.1 = jsToLowerCase name)

/-- Model of `ScraperRegistry.getAllScraperNames`. -/
def getAllScraperNames (reg : Registry) : List String := reg.map Prod.fst

/-- The city list of `scrapers/index.ts`. -/
def zipRecruiterCities : List String := ["Bengaluru", "Mumbai", "Delhi", "Hyderabad", "Pune"]

/-- The registrations performed at module load by `scrapers/index.ts`:
`dice`, `simplyhired`, then one `ziprecruiter-<city>` per city (the name
already lowercased at the call site via `city.toLowerCase()`). -/
def scraperRegistryInit : Registry :=
  let reg := registryRegister [] "dice" .dice
  let reg := registryRegister reg "simplyhired" .simplyHired
  zipRecruiterCities.foldl
    (fun reg city =>
      registryRegister reg ("ziprecruiter-" ++ jsToLowerCase city) (.zipRecruiterCity city))
    reg

/-- Model of `ScraperFactory.createScraper`: throws when the registry has no entry,
otherwise instantiates the registered constructor (the instance is
identified by its constructor here). -/
def createScraper (reg : Registry) (name : String) : Except String ScraperConstructor :=
  match registryGet reg name with
  | none =>
    .error ("Scraper \"" ++ name ++ "\" not found. Available scrapers: "
      ++ String.intercalate ", " (getAllScraperNames reg))
  | some ctor => .ok ctor

/-- Model of `ScraperFactory.isScraperAvailable`. -/
def isScraperAvailable (reg : Registry) (name : String) : Bool := registryHas reg name

/-! ## Store (spec-modelled)

The consumer / store Python sources (`workflow-svc/consumer.py` and the
Alembic migration `001_initial_schema.py`) are not part of the analysed
tree; the model below follows spec §3/§4.5 and the repository's migration
guide (unique `posting_url`; unique composite
`(company_title, job_role, job_location, employment_type)`; insert-or-ignore
with per-row duplicate counting). -/

/-- Modelled from the spec: the per-row result classes of
`upsertBatch(records) -> (insertedCount, duplicateCount, failures[])`
(§4.5, from the missing `workflow-svc/consumer.py`). -/
inductive RowOutcome where
  | inserted
  | duplicate
  | failed
  deriving DecidableEq, Repr

/-- Modelled from the spec: "`posting_url` is unique when
non-null/non-empty" (§3) — an incoming record with a nonempty posting URL
conflicts with a row carrying the same URL. -/
def urlConflict (row r : JobListing) : Bool :=
  !(r.postingUrl = "") && row.postingUrl = r.postingUrl

/-- The composite key `(company_title, job_role, job_location,
employment_type)` of the `job_listings` schema. -/
def compositeKey (r : JobListing) : String × String × String × String :=
  (r.companyTitle, r.jobRole, r.jobLocation, r.employmentType)

/-- Modelled from the spec: "the composite `(company_title, job_role,
job_location, employment_type)` is unique" (§3). -/
def compositeConflict (row r : JobListing) : Bool :=
  compositeKey row = compositeKey r

/-- A write of `r` violates one of the two uniqueness constraints against an
existing `row`. -/
def rowConflict (row r : JobListing) : Bool :=
  urlConflict row r || compositeConflict row r

/-- Modelled from the spec: the insert-or-ignore write of a single record
(§3/§4.5, from the missing `workflow-svc/consumer.py`): a write violating
either constraint is skipped, the existing rows are left untouched, and the
event is counted as a duplicate, not surfaced as failure. -/
def insertOne (store : List JobListing) (r : JobListing) : List JobListing × RowOutcome :=
  if store.any (fun row => rowConflict row r) then (store, .duplicate)
  else (store ++ [r], .inserted)

/-- Modelled from the spec: one row of the bulk write — a transient I/O
error (the oracle `ioFails`) leaves the store unchanged and is a failure
distinct from a duplicate (§4.5). -/
def applyRow (ioFails : JobListing → Bool) (store : List JobListing) (r : JobListing) :
    List JobListing × RowOutcome :=
  if ioFails r then (store, .failed) else insertOne store r

/-- Modelled from the spec: `upsertBatch` (§4.5, from the missing
`workflow-svc/consumer.py`) — one bulk write processed per-row so that a
single row's constraint violation or transient failure does not abort the
batch; returns the new store and the per-row outcomes in batch order. -/
def upsertBatchWith (ioFails : JobListing → Bool) :
    List JobListing → List JobListing → List JobListing × List RowOutcome
  | store, [] => (store, [])
  | store, r :: rest =>
    let p := applyRow ioFails store r
    let q := upsertBatchWith ioFails p.1 rest
    (q.1, p.2 :: q.2)

/-- Model of `upsertBatch` when the database is reachable (no transient failures). -/
def upsertBatch (store batch : List JobListing) : List JobListing × List RowOutcome :=
  upsertBatchWith (fun _ => false) store batch

/-- The store contents after a sequence of healthy batch writes starting from
an empty table. -/
def runBatches (batches : List (List JobListing)) : List JobListing :=
  batches.foldl (fun s b => (upsertBatch s b).1) []

/-! ## Queue redelivery and dead-lettering (spec-modelled) -/

/-- Modelled from the spec: `MAX_RETRIES = 3  # Retries before DLQ`
(`QUEUE_SETUP.md`, from the missing `workflow-svc/consumer.py`). -/
def maxRetries : Nat := 3

/-- Modelled from the spec: a queued message envelope — one record plus the
retry count stamped by the re-publish-on-failure logic (§4.3). -/
structure QMsg where
  record : JobListing
  retryCount : Nat
  deriving DecidableEq, Repr

/-- Modelled from the spec: the broker state — the durable main queue and
the dead-letter queue (§4.3, from the missing `workflow-svc/consumer.py` /
`queue_config.py`). -/
structure QState where
  main : List QMsg
  dlq : List QMsg
  deriving DecidableEq, Repr

/-- Modelled from the spec: the redelivery policy of §4.3 — "on
Consumer-reported failure for an individual message, increment its retry
count and re-publish to the main exchange unless the retry count has reached
the configured maximum, in which case the message is published to the
dead-letter exchange instead and the original is acknowledged".  The message
has already been taken off the main queue for delivery when this runs. -/
def handleFailure (st : QState) (m : QMsg) : QState :=
  if m.retryCount < maxRetries then
    { st with main := st.main ++ [⟨m.record, m.retryCount + 1⟩] }
  else
    { st with dlq := st.dlq ++ [m] }

/-- Modelled from the spec: one delivery cycle for a message whose store
write fails transiently every time — the head of the main queue is
delivered, its write fails, and the redelivery policy is applied. -/
def stepFailing (st : QState) : QState :=
  match st.main with
  | [] => st
  | m :: rest => handleFailure { st with main := rest } m

/-! ## Consumer acknowledgement (spec-modelled) -/

/-- Modelled from the spec: the two per-message settlements of the ACKING
phase (§4.4, from the missing `workflow-svc/consumer.py`). -/
inductive AckDecision where
  | ack
  | nack
  deriving DecidableEq, Repr

/-- Modelled from the spec: "row inserted, or row skipped as a confirmed
duplicate ⇒ acknowledge; row write failed for a transient reason ⇒
negative-acknowledge" (§4.4). -/
def ackFor : RowOutcome → AckDecision
  | .inserted => .ack
  | .duplicate => .ack
  | .failed => .nack

/-- The acknowledgement decisions for a batch's per-row outcomes. -/
def ackDecisions (outs : List RowOutcome) : List AckDecision := outs.map ackFor

/-- Modelled from the spec: per-message settlement after one batch flush —
the acknowledged messages leave the queue for good, the negatively
acknowledged ones are handed to the redelivery logic (§4.4/§5). -/
def settleBatch (msgs : List QMsg) (outs : List RowOutcome) : List QMsg × List QMsg :=
  (((msgs.zip outs).filter (fun p => ackFor p.2 = AckDecision.ack)).map Prod.fst,
   ((msgs.zip outs).filter (fun p => ackFor p.2 = AckDecision.nack)).map Prod.fst)

/-! ## Consumer batch collection (spec-modelled) -/

/-- Modelled from the spec: `BATCH_SIZE = 50` (`QUEUE_SETUP.md`, from the
missing `workflow-svc/consumer.py`). -/
def batchSizeCfg : Nat := 50

/-- Modelled from the spec: `BATCH_TIMEOUT = 2.0` seconds, in milliseconds
(`QUEUE_SETUP.md`, from the missing `workflow-svc/consumer.py`). -/
def batchTimeoutMs : Nat := 2000

/-- Modelled from the spec: the COLLECTING state — the in-memory batch
(message ids) and the time elapsed since the first message of the batch
arrived (§4.4). -/
structure CState where
  batch : List Nat
  elapsedMs : Nat
  deriving DecidableEq, Repr

/-- Modelled from the spec: what the collector observes — a message arrival
or the passage of time (§4.4). -/
inductive CEvent where
  | arrive (msgId : Nat)
  | timePasses (ms : Nat)
  deriving DecidableEq, Repr

/-- Modelled from the spec: one COLLECTING transition (§4.4, from the
missing `workflow-svc/consumer.py`) — accumulate until the size threshold is
reached or the window since the first message of the batch elapses,
whichever comes first; an empty window restarts collection; a flush empties
the batch and resets the window. -/
def collectStep (st : CState) (e : CEvent) : CState × Option (List Nat) :=
  match e with
  | .arrive m =>
    let b := st.batch ++ [m]
    if batchSizeCfg ≤ b.length then (⟨[], 0⟩, some b)
    else if st.batch.isEmpty then (⟨b, 0⟩, none)
    else (⟨b, st.elapsedMs⟩, none)
  | .timePasses d =>
    if st.batch.isEmpty then (st, none)
    else if batchTimeoutMs ≤ st.elapsedMs + d then (⟨[], 0⟩, some st.batch)
    else (⟨st.batch, st.elapsedMs + d⟩, none)

/-- Run of the collector over an event sequence, returning the final state
and the flushes it emitted in order. -/
def collectRun : CState → List CEvent → CState × List (List Nat)
  | st, [] => (st, [])
  | st, e :: es =>
    let p := collectStep st e
    let q := collectRun p.1 es
    (q.1,
      match p.2 with
      | some b => b :: q.2
      | none => q.2)

/-! ## Message wire format (spec-modelled) -/

/-- The JSON value shapes occurring in a serialized JobRecord. -/
inductive JsonVal where
  | str (s : String)
  | num (n : Int)
  | null
  deriving DecidableEq, Repr

/-- Modelled from the spec: the Producer's serialization of a record (§4.2 /
§6 message wire format, from the missing producer code) — a JSON object with
the full JobRecord field set, absent values encoded as `""`/`null` by the
field types themselves, never omitted. -/
def serializeJobRecord (r : JobListing) : List (String × JsonVal) :=
  [("companyTitle", .str r.companyTitle),
   ("jobRole", .str r.jobRole),
   ("salaryRange", .str r.salaryRange),
   ("minSalary", match r.minSalary with | some v => .num v | none => .null),
   ("maxSalary", match r.maxSalary with | some v => .num v | none => .null),
   ("requiredExperience", .str r.requiredExperience),
   ("jobLocation", .str r.jobLocation),
   ("jobDescription", .str r.jobDescription),
   ("datePosted", .str r.datePosted),
   ("postingUrl", .str r.postingUrl),
   ("seniorityLevel", .str r.seniorityLevel),
   ("hiringTeam", .str r.hiringTeam),
   ("aboutCompany", .str r.aboutCompany),
   ("employmentType", .str r.employmentType)]

/-- The fourteen field names of the JobRecord wire format. -/
def jobRecordFieldNames : List String :=
  ["companyTitle", "jobRole", "salaryRange", "minSalary", "maxSalary",
   "requiredExperience", "jobLocation", "jobDescription", "datePosted",
   "postingUrl", "seniorityLevel", "hiringTeam", "aboutCompany", "employmentType"]

/-! ## Sample data -/

/-- A concrete scraped record with a nonempty posting URL, for witness
instantiations. -/
def sampleRecordA : JobListing where
  companyTitle := "Acme"
  jobRole := "Engineer"
  salaryRange := ""
  minSalary := none
  maxSalary := none
  requiredExperience := ""
  jobLocation := "Remote"
  jobDescription := ""
  datePosted := ""
  postingUrl := "A"
  seniorityLevel := ""
  hiringTeam := ""
  aboutCompany := ""
  employmentType := "Full-time"

/-! ## C8 — registered source names -/

/-- Claim C8: After the registrations of `scrapers/index.ts`, the registered
job-board source names are exactly `dice`, `simplyhired` and the five
`ziprecruiter-<city>` variants (listed in insertion order, with pairwise
distinct keys, so equality as lists gives equality as sets); `indeed` and
plain `ziprecruiter` are not available sources, and `IndeedScraper.scrape`
returns the empty list on every page. -/
theorem c8_registered_sources :
    getAllScraperNames scraperRegistryInit =
      ["dice", "simplyhired", "ziprecruiter-bengaluru", "ziprecruiter-mumbai",
       "ziprecruiter-delhi", "ziprecruiter-hyderabad", "ziprecruiter-pune"]
    ∧ registryHas scraperRegistryInit "indeed" = false
    ∧ registryHas scraperRegistryInit "ziprecruiter" = false
    ∧ ∀ page : Nat, indeedScrape page = [] :=
  ⟨by decide, by decide, by decide, fun _ => rfl⟩

/-! ## C10 — the city variant does not influence ZipRecruiter scraping -/

/-- Claim C10: The city passed when registering a `ziprecruiter-<city>` scraper
does not influence scraping: for any two cities, the constructed instances
run the same function on the same request URL for every page and site
content, and that URL is the city-free `zipRecruiterUrl page`. -/
theorem c10_city_noninterference (c1 c2 : String) (page : Nat) (env : ZipSiteEnv) :
    zipScrapeTrace (mkZipRecruiterCityScraper c1) page env
      = zipScrapeTrace (mkZipRecruiterCityScraper c2) page env
    ∧ (zipScrapeTrace (mkZipRecruiterCityScraper c1) page env).1 = zipRecruiterUrl page :=
  ⟨rfl, rfl⟩

/-! ## C5 — extractor failure signalling -/

/-- A Dice page environment for a non-existent page: navigation succeeds but
the server answers 404. -/
def diceEnv404 : DicePageEnv where
  gotoFails := false
  response := some 404
  cardsFound := false
  cards := []

/-- Claim C5, counterexample: The claim requires a non-existent page to
produce a failure of kind `NotFound`; `DiceScraper.scrape` on a page whose
navigation returns status 404 instead succeeds with the empty list — it
signals no failure at all. -/
theorem c5_counterexample : diceScrape 3 diceEnv404 = Except.ok [] := rfl

/-- A SimplyHired page environment in which the pagination click for the
requested page fails. -/
def shEnvPageFail : SHPageEnv where
  launchGotoFails := none
  waitCardsFails := none
  paginationOk := false
  cards := []

/-- Claim C5, amended: An Extractor invocation either returns a (possibly
empty) list of JobRecords or throws a plain untagged error; no error of kind
`NotFound`, `Blocked` or `Timeout` exists.  `DiceScraper.scrape` and
`ZipRecruiterScraper.scrape` never fail: a non-existent page (navigation
error, null or non-200 response, or missing job-card markup) yields the
empty list rather than a `NotFound` failure.  `SimplyHiredScraper.scrape`
signals failure by rethrowing the underlying error or by throwing the plain
`Error` "Could not navigate to page N. Page may not exist.". -/
theorem c5_amended :
    (∀ page env, (diceScrape page env).isOk = true)
    ∧ (∀ page env, env.response ≠ some 200 → diceScrape page env = Except.ok [])
    ∧ (∀ s page env, ((zipScrapeTrace s page env).2).isOk = true)
    ∧ (∀ s page env, env.response (zipRecruiterUrl page) ≠ some 200 →
        (zipScrapeTrace s page env).2 = Except.ok [])
    ∧ (∀ page env, page > 1 → env.launchGotoFails = none → env.waitCardsFails = none →
        env.paginationOk = false →
        simplyHiredScrape page env
          = Except.error ("Could not navigate to page " ++ toString page ++ ". Page may not exist."))
    ∧ (∀ page env msg, env.launchGotoFails = some msg →
        simplyHiredScrape page env = Except.error msg) := by
  refine ⟨?_, ?_, ?_, ?_, ?_, ?_⟩
  · intro page env
    unfold diceScrape
    split
    · rfl
    · split
      · rfl
      · split
        · rfl
        · split <;> rfl
  · intro page env hne
    unfold diceScrape
    split
    · rfl
    · split
      · rfl
      next status heq =>
        split
        · rfl
        next h200 =>
          rw [not_ne_iff.mp h200] at heq
          exact absurd heq hne
  · intro s page env
    show (zipScrapeBody (zipRecruiterUrl page) env).isOk = true
    unfold zipScrapeBody
    split
    · rfl
    · split
      · rfl
      · split
        · rfl
        · split <;> rfl
  · intro s page env hne
    show zipScrapeBody (zipRecruiterUrl page) env = Except.ok []
    unfold zipScrapeBody
    split
    · rfl
    · split
      · rfl
      next status heq =>
        split
        · rfl
        next h200 =>
          rw [not_ne_iff.mp h200] at heq
          exact absurd heq hne
  · intro page env hpage hgoto hwait hpag
    unfold simplyHiredScrape
    rw [hgoto, hwait]
    simp [hpage, hpag]
  · intro page env msg hgoto
    unfold simplyHiredScrape
    rw [hgoto]

/-- Claim C5, witness: The amended theorem at concrete inputs: the 404 Dice
page yields `ok []`, and SimplyHired on page 2 with a failed pagination
click throws the plain navigation error. -/
theorem c5_witness :
    (diceScrape 1 diceEnv404).isOk = true
    ∧ diceScrape 1 diceEnv404 = Except.ok []
    ∧ simplyHiredScrape 2 shEnvPageFail
        = Except.error ("Could not navigate to page " ++ toString 2 ++ ". Page may not exist.") :=
  ⟨c5_amended.1 1 diceEnv404,
   c5_amended.2.1 1 diceEnv404 (by decide),
   c5_amended.2.2.2.2.1 2 shEnvPageFail (by decide) rfl rfl rfl⟩

/-! ## C7 — full field set, absent values encoded, never omitted -/

/-- A Dice job card on which every element query fails. -/
def emptyDiceCardEnv : DiceCardEnv where
  companyTitle := none
  jobRole := none
  salaryRange := none
  cardDescription := none
  locationTexts := []
  jobDescription := none
  href := none
  employmentType := none

/-- Claim C7: Every serialized record carries exactly the fourteen JobRecord
keys, whatever the record's contents; and a Dice job card field whose
extraction fails is encoded as the empty string (`null` for the salary
bounds) in the constructed record, never omitted. -/
theorem c7_full_field_set :
    (∀ r : JobListing, (serializeJobRecord r).map Prod.fst = jobRecordFieldNames)
    ∧ (∀ env : DiceCardEnv,
        (env.companyTitle = none → (mkDiceJobListing env).companyTitle = "")
        ∧ (env.jobRole = none → (mkDiceJobListing env).jobRole = "")
        ∧ (env.salaryRange = none →
            (mkDiceJobListing env).salaryRange = ""
            ∧ (mkDiceJobListing env).minSalary = none
            ∧ (mkDiceJobListing env).maxSalary = none)
        ∧ (env.cardDescription = none → (mkDiceJobListing env).requiredExperience = "")
        ∧ (env.locationTexts = [] →
            (mkDiceJobListing env).jobLocation = "" ∧ (mkDiceJobListing env).datePosted = "")
        ∧ (env.jobDescription = none → (mkDiceJobListing env).jobDescription = "")
        ∧ (env.href = none → (mkDiceJobListing env).postingUrl = "")
        ∧ (env.employmentType = none → (mkDiceJobListing env).employmentType = "")
        ∧ (env.jobRole = none → env.jobDescription = none →
            (mkDiceJobListing env).seniorityLevel = "")
        ∧ (mkDiceJobListing env).hiringTeam = ""
        ∧ (mkDiceJobListing env).aboutCompany = "") := by
  refine ⟨fun r => rfl, fun env => ?_⟩
  refine ⟨fun h => by simp [mkDiceJobListing, h],
    fun h => by simp [mkDiceJobListing, h],
    fun h => ⟨by simp [mkDiceJobListing, h], by simp [mkDiceJobListing, h, diceGetMinSalary],
      by simp [mkDiceJobListing, h, diceGetMaxSalary]⟩,
    fun h => by simp [mkDiceJobListing, h],
    fun h => by simp [mkDiceJobListing, h],
    fun h => by simp [mkDiceJobListing, h],
    fun h => by simp [mkDiceJobListing, h, postingUrlFrom],
    fun h => by simp [mkDiceJobListing, h],
    fun h1 h2 => by simp only [mkDiceJobListing, h1, h2, Option.getD_none]; decide,
    by simp [mkDiceJobListing],
    by simp [mkDiceJobListing]⟩

/-- Claim C7, witness: The field-presence and default-encoding facts at the
all-failing Dice card. -/
theorem c7_witness :
    (serializeJobRecord (mkDiceJobListing emptyDiceCardEnv)).map Prod.fst = jobRecordFieldNames
    ∧ (mkDiceJobListing emptyDiceCardEnv).companyTitle = ""
    ∧ (mkDiceJobListing emptyDiceCardEnv).minSalary = none
    ∧ (mkDiceJobListing emptyDiceCardEnv).postingUrl = "" :=
  ⟨c7_full_field_set.1 (mkDiceJobListing emptyDiceCardEnv),
   (c7_full_field_set.2 emptyDiceCardEnv).1 rfl,
   ((c7_full_field_set.2 emptyDiceCardEnv).2.2.1 rfl).2.1,
   (c7_full_field_set.2 emptyDiceCardEnv).2.2.2.2.2.2.1 rfl⟩

/-! ## C9 — factory failure ⇔ unavailability, case-insensitive lookup -/

/-- Fact: `Char.toLower` is idempotent: lowercasing moves the basic latin capitals
into `97..122`, outside the capital range. -/
theorem charToLowerIdem (c : Char) : c.toLower.toLower = c.toLower := by
  by_cases h : 65 ≤ c.toNat ∧ c.toNat ≤ 90
  · obtain ⟨h1, h2⟩ := h
    have he : c.toLower = Char.ofNat (c.toNat + 32) := by
      unfold Char.toLower
      rw [if_pos ⟨h1, h2⟩]
    rw [he]
    set n := c.toNat with hn
    interval_cases n <;> decide
  · have he : c.toLower = c := by
      unfold Char.toLower
      rw [if_neg h]
    rw [he, he]

/-- The model of JavaScript `toLowerCase` is idempotent. -/
theorem jsToLowerCaseIdem (s : String) : jsToLowerCase (jsToLowerCase s) = jsToLowerCase s := by
  show String.mk ((s.data.map Char.toLower).map Char.toLower) = String.mk (s.data.map Char.toLower)
  rw [List.map_map]
  congr 1
  apply List.map_congr_left
  intro a _
  exact charToLowerIdem a

/-- Lemma: `has` answers positively exactly when `get` finds an entry: both probe
the same lowercased key. -/
theorem registryHas_eq (reg : Registry) (name : String) :
    registryHas reg name = (registryGet reg name).isSome := by
  unfold registryHas registryGet
  induction reg with
  | nil => rfl
  | cons a t ih =>
    by_cases h : a.1 = jsToLowerCase name
    · simp [List.any_cons, List.find?_cons, h]
    · simp [List.any_cons, List.find?_cons, h, ih]

/-- Claim C9: `ScraperFactory.createScraper(name)` throws exactly when
`isScraperAvailable(name)` is false; availability is case-insensitive
(`has(name) = has(name.toLowerCase())`, both registration and lookup
lowercasing the key); and when the lookup succeeds, the factory instantiates
precisely the constructor registered under the lowercased name. -/
theorem c9_factory (reg : Registry) (name : String) :
    (createScraper reg name).isOk = isScraperAvailable reg name
    ∧ isScraperAvailable reg name = isScraperAvailable reg (jsToLowerCase name)
    ∧ ∀ ctor, registryGet reg name = some ctor → createScraper reg name = .ok ctor := by
  refine ⟨?_, ?_, ?_⟩
  · unfold isScraperAvailable
    rw [registryHas_eq]
    unfold createScraper
    cases h : registryGet reg name <;> rfl
  · unfold isScraperAvailable registryHas
    rw [jsToLowerCaseIdem]
  · intro ctor h
    unfold createScraper
    rw [h]

/-- Claim C9, witness: The factory facts at the initialized registry and the
mixed-case name `"Dice"`. -/
theorem c9_witness :
    (createScraper scraperRegistryInit "Dice").isOk = isScraperAvailable scraperRegistryInit "Dice"
    ∧ isScraperAvailable scraperRegistryInit "Dice"
        = isScraperAvailable scraperRegistryInit (jsToLowerCase "Dice")
    ∧ createScraper scraperRegistryInit "Dice" = .ok ScraperConstructor.dice :=
  ⟨(c9_factory scraperRegistryInit "Dice").1,
   (c9_factory scraperRegistryInit "Dice").2.1,
   (c9_factory scraperRegistryInit "Dice").2.2 ScraperConstructor.dice (by decide)⟩

/-! ## C1 — idempotent writes keyed on the posting URL -/

/-- Claim C1: For a record with a nonempty posting URL that conflicts with no
existing row, writing it twice persists exactly one row: the first write
inserts, the second is absorbed by the posting-URL uniqueness constraint as
a duplicate, leaves the store untouched, exactly one row with that posting
URL exists afterwards, and the second write is not reported as a failure. -/
theorem c1_url_idempotence (store : List JobListing) (r : JobListing)
    (hurl : r.postingUrl ≠ "")
    (hfresh : ∀ row ∈ store, rowConflict row r = false) :
    insertOne store r = (store ++ [r], RowOutcome.inserted)
    ∧ insertOne (store ++ [r]) r = (store ++ [r], RowOutcome.duplicate)
    ∧ (((insertOne (store ++ [r]) r).1).filter
        (fun row => row.postingUrl = r.postingUrl)).length = 1
    ∧ (insertOne (store ++ [r]) r).2 ≠ RowOutcome.failed := by
  have hc : rowConflict r r = true := by
    simp [rowConflict, compositeConflict]
  have h1 : store.any (fun row => rowConflict row r) = false := by
    rw [List.any_eq_false]
    intro x hx
    simp [hfresh x hx]
  have hfirst : insertOne store r = (store ++ [r], RowOutcome.inserted) := by
    unfold insertOne
    rw [if_neg]
    simp [h1]
  have hany2 : (store ++ [r]).any (fun row => rowConflict row r) = true := by
    rw [List.any_append]
    simp [hc]
  have hsecond : insertOne (store ++ [r]) r = (store ++ [r], RowOutcome.duplicate) := by
    unfold insertOne
    rw [if_pos hany2]
  have hfilter : (store ++ [r]).filter (fun row => row.postingUrl = r.postingUrl) = [r] := by
    rw [List.filter_append]
    have hs : store.filter (fun row => row.postingUrl = r.postingUrl) = [] := by
      rw [List.filter_eq_nil_iff]
      intro a ha
      have hconf := hfresh a ha
      have hu : urlConflict a r = false := by
        have := Bool.or_eq_false_iff.mp (by simpa [rowConflict] using hconf)
        exact this.1
      simp only [urlConflict, Bool.and_eq_false_iff] at hu
      rcases hu with hu | hu
      · simp [hurl] at hu
      · simpa using hu
    rw [hs]
    simp
  exact ⟨hfirst, hsecond, by rw [hsecond]; simpa using congrArg List.length hfilter,
    by rw [hsecond]; simp⟩

/-- Claim C1, witness: The idempotence facts at the concrete record
`sampleRecordA` (posting URL `"A"`) over the empty store. -/
theorem c1_witness :
    insertOne [] sampleRecordA = ([] ++ [sampleRecordA], RowOutcome.inserted)
    ∧ insertOne ([] ++ [sampleRecordA]) sampleRecordA
        = ([] ++ [sampleRecordA], RowOutcome.duplicate)
    ∧ (((insertOne ([] ++ [sampleRecordA]) sampleRecordA).1).filter
        (fun row => row.postingUrl = sampleRecordA.postingUrl)).length = 1
    ∧ (insertOne ([] ++ [sampleRecordA]) sampleRecordA).2 ≠ RowOutcome.failed :=
  c1_url_idempotence [] sampleRecordA (by decide) (by simp)

/-! ## C2 — composite-key uniqueness invariant -/

/-- The store invariant: all rows carry pairwise distinct composite keys. -/
def compositeUnique (store : List JobListing) : Prop :=
  store.Pairwise (fun a b => compositeKey a ≠ compositeKey b)

/-- A single insert-or-ignore write preserves the composite-key
invariant: a record colliding on the composite key is skipped. -/
theorem insertOne_compositeUnique (store : List JobListing) (r : JobListing)
    (h : compositeUnique store) : compositeUnique (insertOne store r).1 := by
  unfold insertOne
  split
  · exact h
  next hno =>
    have hfalse : store.any (fun row => rowConflict row r) = false := by
      simpa using hno
    rw [compositeUnique, List.pairwise_append]
    refine ⟨h, List.pairwise_singleton _ _, ?_⟩
    intro a ha b hb
    have hb' : b = r := by simpa using hb
    subst hb'
    have hpa := List.any_eq_false.mp hfalse a ha
    have hcomp : compositeConflict a b = false := by
      rcases Bool.or_eq_false_iff.mp
        (by simpa [rowConflict] using (Bool.eq_false_iff.mpr hpa)) with ⟨-, h2⟩
      exact h2
    simpa [compositeConflict] using hcomp

/-- Every per-row batch write preserves the composite-key invariant. -/
theorem upsertBatchWith_compositeUnique (f : JobListing → Bool) :
    ∀ (batch : List JobListing) (store : List JobListing),
      compositeUnique store → compositeUnique (upsertBatchWith f store batch).1 := by
  intro batch
  induction batch with
  | nil => exact fun store h => h
  | cons r rest ih =>
    intro store h
    have hfst : (upsertBatchWith f store (r :: rest)).1
        = (upsertBatchWith f (applyRow f store r).1 rest).1 := rfl
    rw [hfst]
    apply ih
    unfold applyRow
    split
    · exact h
    · exact insertOne_compositeUnique store r h

/-- In a list with pairwise distinct composite keys, at most one element
satisfies any predicate refining "has composite key `k`". -/
theorem length_filter_key_le_one (p : JobListing → Bool)
    (k : String × String × String × String) :
    ∀ {l : List JobListing}, l.Pairwise (fun a b => compositeKey a ≠ compositeKey b) →
      (l.filter (fun row => p row && compositeKey row = k)).length ≤ 1 := by
  intro l hl
  induction hl with
  | nil => simp
  | @cons a t ha _ ih =>
    by_cases hpa : (p a && (compositeKey a = k : Bool)) = true
    · rw [List.filter_cons, if_pos hpa]
      have hk : compositeKey a = k :=
        of_decide_eq_true (Bool.and_eq_true_iff.mp hpa).2
      have hnil : t.filter (fun row => p row && (compositeKey row = k : Bool)) = [] := by
        rw [List.filter_eq_nil_iff]
        intro b hb
        simp only [Bool.and_eq_true, decide_eq_true_eq, not_and]
        intro _ hbk
        exact absurd (hk.trans hbk.symm) (ha b hb)
      simp [hnil]
    · rw [List.filter_cons, if_neg hpa]
      exact ih

/-- Claim C2: The composite key `(company_title, job_role, job_location,
employment_type)` stays unique across any sequence of batch writes: for
every key, at most one persisted row with no posting URL carries it; and a
write whose composite key matches an existing row's is skipped as a
duplicate, leaving the store unchanged. -/
theorem c2_composite_dedup (batches : List (List JobListing))
    (k : String × String × String × String) :
    ((runBatches batches).filter
        (fun row => row.postingUrl = "" && compositeKey row = k)).length ≤ 1
    ∧ ∀ store r1 r2, r1 ∈ store → compositeKey r1 = compositeKey r2 →
        insertOne store r2 = (store, RowOutcome.duplicate) := by
  constructor
  · have aux : ∀ (bs : List (List JobListing)) (s : List JobListing),
        compositeUnique s →
        compositeUnique (bs.foldl (fun s b => (upsertBatch s b).1) s) := by
      intro bs
      induction bs with
      | nil => exact fun s h => h
      | cons b rest ih =>
        intro s h
        exact ih _ (upsertBatchWith_compositeUnique _ b s h)
    exact length_filter_key_le_one _ k (aux batches [] List.Pairwise.nil)
  · intro store r1 r2 h1 hk
    have hany : store.any (fun row => rowConflict row r2) = true := by
      rw [List.any_eq_true]
      exact ⟨r1, h1, by simp [rowConflict, compositeConflict, hk]⟩
    unfold insertOne
    rw [if_pos hany]

/-- Claim C2, witness: The composite-dedup facts at a concrete one-batch run
and a concrete colliding pair (two copies of `sampleRecordA` with the URL
blanked). -/
theorem c2_witness :
    ((runBatches [[]]).filter
        (fun row => row.postingUrl = ""
          && compositeKey row = ("Acme", "Engineer", "Remote", "Full-time"))).length ≤ 1
    ∧ insertOne [{ sampleRecordA with postingUrl := "" }] { sampleRecordA with postingUrl := "" }
        = ([{ sampleRecordA with postingUrl := "" }], RowOutcome.duplicate) :=
  ⟨(c2_composite_dedup [[]] ("Acme", "Engineer", "Remote", "Full-time")).1,
   (c2_composite_dedup [[]] ("Acme", "Engineer", "Remote", "Full-time")).2
     [{ sampleRecordA with postingUrl := "" }]
     { sampleRecordA with postingUrl := "" } { sampleRecordA with postingUrl := "" }
     (List.mem_singleton.mpr rfl) rfl⟩

/-! ## C3 — retry ceiling and dead-lettering -/

/-- Delivery cycles are inert once the main queue is empty: a dead-lettered
message stays in the DLQ and is never dropped. -/
theorem stepFailing_fix (j : Nat) (d : List QMsg) :
    stepFailing^[j] ⟨[], d⟩ = ⟨[], d⟩ := by
  induction j with
  | zero => rfl
  | succ n ih =>
    rw [Function.iterate_succ_apply]
    exact ih

/-- Claim C3: A message whose store write fails transiently on every delivery
is re-published with its retry count incremented on each of the first
`maxRetries` failing deliveries (after `k ≤ maxRetries` deliveries it sits
in the main queue stamped with retry count `k`, so it is redelivered exactly
`maxRetries` times), and every delivery past the ceiling leaves it in the
dead-letter queue with the final retry count, gone from the main queue and
never dropped. -/
theorem c3_retry_ceiling (r : JobListing) :
    (∀ k, k ≤ maxRetries →
      stepFailing^[k] ⟨[⟨r, 0⟩], []⟩ = ⟨[⟨r, k⟩], []⟩)
    ∧ (∀ k, maxRetries < k →
      stepFailing^[k] ⟨[⟨r, 0⟩], []⟩ = ⟨[], [⟨r, maxRetries⟩]⟩) := by
  constructor
  · intro k hk
    have hk3 : k ≤ 3 := hk
    interval_cases k <;> rfl
  · intro k hk
    have hm : maxRetries = 3 := rfl
    rw [hm] at hk
    obtain ⟨j, rfl⟩ : ∃ j, k = j + 4 := ⟨k - 4, by omega⟩
    rw [Function.iterate_add_apply]
    have h4 : stepFailing^[4] (⟨[⟨r, 0⟩], []⟩ : QState) = ⟨[], [⟨r, maxRetries⟩]⟩ := rfl
    rw [h4]
    exact stepFailing_fix j _

/-- Claim C3, witness: The retry trace of the concrete always-failing record:
after 3 failing deliveries it is back on the main queue with retry count 3;
the 4th failing delivery dead-letters it. -/
theorem c3_witness :
    stepFailing^[3] ⟨[⟨sampleRecordA, 0⟩], []⟩ = ⟨[⟨sampleRecordA, 3⟩], []⟩
    ∧ stepFailing^[4] ⟨[⟨sampleRecordA, 0⟩], []⟩ = ⟨[], [⟨sampleRecordA, maxRetries⟩]⟩ :=
  ⟨(c3_retry_ceiling sampleRecordA).1 3 (by decide),
   (c3_retry_ceiling sampleRecordA).2 4 (by decide)⟩

/-! ## C4 — per-row acknowledgement -/

/-- The `n`-th record of the concrete 50-record batch: distinct posting URLs
and distinct composite keys, so no write is a duplicate. -/
def recN (n : Nat) : JobListing where
  companyTitle := "c" ++ toString n
  jobRole := ""
  salaryRange := ""
  minSalary := none
  maxSalary := none
  requiredExperience := ""
  jobLocation := ""
  jobDescription := ""
  datePosted := ""
  postingUrl := "url" ++ toString n
  seniorityLevel := ""
  hiringTeam := ""
  aboutCompany := ""
  employmentType := ""

/-- Transient-failure oracle that fails exactly the write of record 7. -/
def failsRec7 (r : JobListing) : Bool := r.postingUrl = "url7"

/-- A batch of 50 distinct records. -/
def batch50 : List JobListing := (List.range 50).map recN

/-- The queue messages carrying `batch50`. -/
def msgs50 : List QMsg := batch50.map (fun r => ⟨r, 0⟩)

/-- The per-row outcomes of flushing `batch50` into an empty store while the
write of record 7 fails transiently. -/
def outs50 : List RowOutcome := (upsertBatchWith failsRec7 [] batch50).2

/-- Claim C4: Acknowledgement is per-row, not per-batch: in every settled
batch, exactly the messages whose rows were written or absorbed as
duplicates are acknowledged and exactly the transiently-failed rows'
messages are negatively acknowledged; in the concrete batch of 50 with one
transient failure there are 49 acks, 1 nack, and the only message handed to
redelivery is the failed one — none of the 49 acknowledged messages is
redelivered. -/
theorem c4_per_row_acking :
    (∀ (msgs : List QMsg) (outs : List RowOutcome),
      (settleBatch msgs outs).1
          = ((msgs.zip outs).filter (fun p => !(p.2 = RowOutcome.failed))).map Prod.fst
      ∧ (settleBatch msgs outs).2
          = ((msgs.zip outs).filter (fun p => p.2 = RowOutcome.failed)).map Prod.fst)
    ∧ (ackDecisions outs50).count AckDecision.ack = 49
    ∧ (ackDecisions outs50).count AckDecision.nack = 1
    ∧ (settleBatch msgs50 outs50).2 = [⟨recN 7, 0⟩]
    ∧ (settleBatch msgs50 outs50).1.length = 49 := by
  refine ⟨?_, by decide, by decide, by decide, by decide⟩
  intro msgs outs
  constructor
  · unfold settleBatch
    dsimp only
    congr 1
    apply List.filter_congr
    intro p _
    rcases p with ⟨m, o⟩
    cases o <;> rfl
  · unfold settleBatch
    dsimp only
    congr 1
    apply List.filter_congr
    intro p _
    rcases p with ⟨m, o⟩
    cases o <;> rfl

/-! ## C6 — batch collection triggers -/

/-- Claim C6: A COLLECTING cycle flushes exactly when the arriving message
fills the batch to the size threshold or the window since the first message
of the batch has elapsed over a nonempty batch, whichever comes first; three
messages followed by a 3-second quiet period yield exactly one flush holding
those three messages; a window with no messages yields no flush; and fifty
arrivals flush once with the full batch. -/
theorem c6_batch_window :
    (∀ st e, ((collectStep st e).2).isSome = true ↔
      (match e with
       | CEvent.arrive _ => batchSizeCfg ≤ st.batch.length + 1
       | CEvent.timePasses d => st.batch ≠ [] ∧ batchTimeoutMs ≤ st.elapsedMs + d))
    ∧ (collectRun ⟨[], 0⟩
        [CEvent.arrive 1, CEvent.arrive 2, CEvent.arrive 3, CEvent.timePasses 3000]).2
        = [[1, 2, 3]]
    ∧ (∀ ds : List Nat, (collectRun ⟨[], 0⟩ (ds.map CEvent.timePasses)).2 = [])
    ∧ (collectRun ⟨[], 0⟩ ((List.range 50).map CEvent.arrive)).2 = [List.range 50] := by
  refine ⟨?_, by decide, ?_, by decide⟩
  · intro st e
    cases e with
    | arrive m =>
      by_cases h : batchSizeCfg ≤ st.batch.length + 1
      · simp [collectStep, h]
      · simp only [collectStep, List.length_append, List.length_singleton]
        rw [if_neg h]
        split <;> simp [h]
    | timePasses d =>
      by_cases h1 : st.batch = []
      · simp [collectStep, h1]
      · by_cases h2 : batchTimeoutMs ≤ st.elapsedMs + d
        · simp [collectStep, h1, h2, List.isEmpty_iff]
        · simp [collectStep, h1, h2, List.isEmpty_iff]
  · intro ds
    induction ds with
    | nil => rfl
    | cons d rest ih =>
      rw [List.map_cons]
      have h1 : (collectRun ⟨[], 0⟩ (CEvent.timePasses d :: rest.map CEvent.timePasses)).2
          = (collectRun ⟨[], 0⟩ (rest.map CEvent.timePasses)).2 := rfl
      rw [h1]
      exact ih

end JobGtm
